import Mathlib

/-!
Shallow embedding of the dapp-projects repository scripts.

Each TypeScript script is a linear sequence of awaited external calls
(bridging SDK, chain RPC providers) followed by console output.  We model a
script run as a function from an environment of external-call responses to a
trace of observable events (console output and external calls made) together
with a result: normal completion, a thrown error, or an explicit
`process.exit` call.  Every awaited external call may reject, which we model
by giving each oracle response the type `Except String _`.  Consecutive
awaits whose intermediate value is unused (sending a transaction and waiting
for its receipt) are combined into a single oracle response.
-/

/-- Wei amounts: ethers `BigNumber` values are exact arbitrary-precision
integers; the scripts only handle non-negative ones. -/
abbrev Wei := Nat

/-- Observable events of a script run: console output and external calls. -/
inductive Event where
  | log (s : String)
  | warn (s : String)
  | errorLog (s : String)
  | callBridgeInit
  | callGetL2EthBalance
  | callDepositETH (amount : Wei)
  | callDepositEthInbox (maxSubmissionCost : Wei) (value : Wei)
  | callTxWait
  | callGetInboxSeqNum
  | callCalcL2TxHash (seqNum : Option Nat)
  | callCalcL2RetryableTxHash (seqNum : Option Nat)
  | callWaitForTransaction (txHash : String) (timeoutMs : Option Nat)
  | callWithdrawETH (amount : Wei)
  | callArbSysWithdrawEth (dest : String) (value : Wei)
  | callGetWithdrawals
  | callGetBalance
  | callDeploy (contractName : String)
  | callUpdateTarget (methodName : String)
  | callGreet
  | callGetTxnSubmissionPrice (dataLength : Nat)
  | callGetGasPrice
  | callSetGreetingInL2 (greeting : String) (submissionPrice : Wei)
      (maxGasArg : Nat) (gasPriceBid : Wei) (callValue : Wei)
  deriving DecidableEq

/-- How a script run stopped early: a thrown error or a `process.exit`. -/
inductive Halt where
  | thrown (msg : String)
  | exited (code : Nat)
  deriving DecidableEq

abbrev Trace := List Event

/-- Result of running (a suffix of) a script: the events it produced and
either a value or an early halt. -/
abbrev ScriptRes (α : Type) := Trace × Except Halt α

/-- Sequencing: run the first step; if it completed, run the continuation and
concatenate the traces, otherwise propagate the halt. -/
def bindS {α β : Type} (x : ScriptRes α) (k : α → ScriptRes β) : ScriptRes β :=
  match x with
  | (t, Except.ok a) => (t ++ (k a).1, (k a).2)
  | (t, Except.error h) => (t, Except.error h)

/-- A console statement. -/
def emit (e : Event) : ScriptRes Unit := ([e], Except.ok ())

/-- An awaited external call: the call event is observable even if the call
rejects; a rejection becomes a thrown error. -/
def extCall {α : Type} (e : Event) (r : Except String α) : ScriptRes α :=
  ([e],
    match r with
    | Except.ok a => Except.ok a
    | Except.error m => Except.error (Halt.thrown m))

/-- `throw new Error(msg)`. -/
def throwScript {α : Type} (msg : String) : ScriptRes α :=
  ([], Except.error (Halt.thrown msg))

/-- `process.exit(code)` inside `main`. -/
def exitScript {α : Type} (code : Nat) : ScriptRes α :=
  ([], Except.error (Halt.exited code))

/-- The common top-level wrapper
`main().then(() => process.exit(0)).catch(e => \x7b console.error(e); process.exit(1) \x7d)`:
returns the full trace and the process exit status. -/
def runScript (m : ScriptRes Unit) : Trace × Nat :=
  match m with
  | (t, Except.ok _) => (t, 0)
  | (t, Except.error (Halt.thrown msg)) => (t ++ [Event.errorLog msg], 1)
  | (t, Except.error (Halt.exited c)) => (t, c)

/-! ## deposit-via-lib.ts -/

/-- Oracle responses for one run of `deposit-via-lib.ts`. -/
structure DepositViaLibEnv where
  bridgeInit : Except String Unit
  initialBalance : Except String Wei
  depositETH : Except String Unit
  depositWait : Except String String
  seqNums : Except String (Option (List Nat))
  calcL2TxHash : Option Nat → Except String String
  waitForTx : String → Except String String
  updatedBalance : Except String Wei

/-- `parseEther "0.0001"` in wei (exact). -/
def ethToL2DepositAmount : Wei := 100000000000000

/-- Timeout literal passed to `waitForTransaction` in `deposit-via-lib.ts`. -/
def depositViaLibWaitTimeout : Option Nat := some (1000 * 60 * 12)

/-- `main` of `deposit-via-lib.ts`. -/
def depositViaLibMain (env : DepositViaLibEnv) : ScriptRes Unit :=
  bindS (emit (Event.log "Deposit Eth via arb-ts")) fun _ =>
  bindS (extCall Event.callBridgeInit env.bridgeInit) fun _ =>
  bindS (extCall Event.callGetL2EthBalance env.initialBalance)
    fun l2WalletInitialEthBalance =>
  bindS (extCall (Event.callDepositETH ethToL2DepositAmount) env.depositETH) fun _ =>
  bindS (extCall Event.callTxWait env.depositWait) fun recHash =>
  bindS (emit (Event.warn ("deposit L1 receipt is: " ++ recHash))) fun _ =>
  bindS (extCall Event.callGetInboxSeqNum env.seqNums) fun seqNumArr =>
  match seqNumArr with
  | none => throwScript "no seq num"
  | some l =>
    bindS (emit (Event.log "inbox sequence number is found!")) fun _ =>
    bindS (extCall (Event.callCalcL2TxHash l.head?) (env.calcL2TxHash l.head?))
      fun l2TxHash =>
    bindS (emit (Event.log ("l2TxHash is: " ++ l2TxHash))) fun _ =>
    bindS (emit (Event.log "waiting for l2 transaction:")) fun _ =>
    bindS (extCall (Event.callWaitForTransaction l2TxHash depositViaLibWaitTimeout)
      (env.waitForTx l2TxHash)) fun l2TxnRecHash =>
    bindS (emit (Event.log ("L2 transaction found! " ++ l2TxnRecHash))) fun _ =>
    bindS (extCall Event.callGetL2EthBalance env.updatedBalance)
      fun l2WalletUpdatedEthBalance =>
    emit (Event.log ("your L2 balance is updated from "
      ++ toString l2WalletInitialEthBalance ++ " to "
      ++ toString l2WalletUpdatedEthBalance))

/-! ## deposit-via-inbox.ts -/

/-- Oracle responses for one run of `deposit-via-inbox.ts`. -/
structure DepositViaInboxEnv where
  bridgeInit : Except String Unit
  initialBalance : Except String Wei
  depositEth : Except String Unit
  depositWait : Except String String
  seqNums : Except String (Option (List Nat))
  calcL2TxHash : Option Nat → Except String String
  waitForTx : String → Except String String
  updatedBalance : Except String Wei

/-- Hard-coded `MaxSubmissionCost` passed to `inbox.depositEth`. -/
def inboxMaxSubmissionCost : Wei := 10000000000000

/-- Timeout literal passed to `waitForTransaction` in `deposit-via-inbox.ts`. -/
def depositViaInboxWaitTimeout : Option Nat := some (1000 * 60 * 12)

/-- `main` of `deposit-via-inbox.ts`. -/
def depositViaInboxMain (env : DepositViaInboxEnv) : ScriptRes Unit :=
  bindS (emit (Event.log "(\x27Deposit Eth via the Inbox\x27)")) fun _ =>
  bindS (extCall Event.callBridgeInit env.bridgeInit) fun _ =>
  bindS (extCall Event.callGetL2EthBalance env.initialBalance)
    fun l2WalletInitialEthBalance =>
  bindS (extCall (Event.callDepositEthInbox inboxMaxSubmissionCost ethToL2DepositAmount)
    env.depositEth) fun _ =>
  bindS (extCall Event.callTxWait env.depositWait) fun recHash =>
  bindS (emit (Event.warn ("Deposit L1 receipt is: " ++ recHash))) fun _ =>
  bindS (extCall Event.callGetInboxSeqNum env.seqNums) fun seqNumArr =>
  match seqNumArr with
  | none => throwScript "No seq num"
  | some l =>
    bindS (emit (Event.log "Inbox sequence number is found!")) fun _ =>
    bindS (extCall (Event.callCalcL2TxHash l.head?) (env.calcL2TxHash l.head?))
      fun l2TxHash =>
    bindS (emit (Event.warn ("L2 Tx Hash is " ++ l2TxHash))) fun _ =>
    bindS (emit (Event.log "Waiting for L2 tx...")) fun _ =>
    bindS (extCall (Event.callWaitForTransaction l2TxHash depositViaInboxWaitTimeout)
      (env.waitForTx l2TxHash)) fun l2TxRecHash =>
    bindS (emit (Event.log ("L2 tx found: " ++ l2TxRecHash))) fun _ =>
    bindS (extCall Event.callGetL2EthBalance env.updatedBalance)
      fun l2WalletUpdatedEthBalance =>
    emit (Event.log ("Your L2 balance is updated from "
      ++ toString l2WalletInitialEthBalance ++ " to "
      ++ toString l2WalletUpdatedEthBalance))

/-! ## withdraw-via-lib.ts -/

/-- Oracle responses for one run of `withdraw-via-lib.ts`. -/
structure WithdrawViaLibEnv where
  bridgeInit : Except String Unit
  initialBalance : Except String Wei
  withdrawETH : Except String Unit
  withdrawWait : Except String String
  withdrawalsData : Except String (List String)
  walletAddress : String

/-- `parseEther "0.000001"` in wei (exact). -/
def ethFromL2WithdrawAmount : Wei := 1000000000000

/-- JavaScript rendering of a possibly-undefined value in console output. -/
def showOptString : Option String → String
  | none => "undefined"
  | some s => s

/-- `main` of `withdraw-via-lib.ts`. -/
def withdrawViaLibMain (env : WithdrawViaLibEnv) : ScriptRes Unit :=
  bindS (emit (Event.log "Withdraw Eth via arb-ts")) fun _ =>
  bindS (extCall Event.callBridgeInit env.bridgeInit) fun _ =>
  bindS (extCall Event.callGetL2EthBalance env.initialBalance)
    fun l2WalletInitialEthBalance =>
  if l2WalletInitialEthBalance < ethFromL2WithdrawAmount then
    bindS (emit (Event.log ("Oops - not enough ether; fund your account L2 wallet currently "
      ++ env.walletAddress ++ " with at least 0.000001 ether"))) fun _ =>
    exitScript 1
  else
    bindS (emit (Event.log "Wallet properly funded: initiating withdrawal now")) fun _ =>
    bindS (extCall (Event.callWithdrawETH ethFromL2WithdrawAmount) env.withdrawETH) fun _ =>
    bindS (extCall Event.callTxWait env.withdrawWait) fun withdrawRecHash =>
    bindS (extCall Event.callGetWithdrawals env.withdrawalsData) fun withdrawalsList =>
    bindS (emit (Event.log ("Ether withdrawal initiated! 🥳 " ++ withdrawRecHash))) fun _ =>
    bindS (emit (Event.log ("Withdrawal data: "
      ++ showOptString withdrawalsList.head?))) fun _ =>
    emit (Event.log "To to claim funds (after dispute period), see outbox-execute repo ✌️")

/-! ## withdraw-via-arbsys.ts -/

/-- Oracle responses for one run of `withdraw-via-arbsys.ts`. -/
structure WithdrawViaArbsysEnv where
  initialBalance : Except String Wei
  withdrawEth : Except String Unit
  withdrawWait : Except String String
  withdrawalsData : Except String (List String)
  updatedBalance : Except String Wei
  walletAddress : String

/-- `parseEther "0.001"` in wei (exact). -/
def ethFromL2WithdrawAmountArbsys : Wei := 1000000000000000

/-- `main` of `withdraw-via-arbsys.ts`. -/
def withdrawViaArbsysMain (env : WithdrawViaArbsysEnv) : ScriptRes Unit :=
  bindS (emit (Event.log "Withdraw Eth via ArbSys")) fun _ =>
  bindS (extCall Event.callGetBalance env.initialBalance)
    fun l2WalletInitialEthBalance =>
  if l2WalletInitialEthBalance < ethFromL2WithdrawAmountArbsys then
    bindS (emit (Event.log ("Oops - not enough ether; fund your account L2 wallet currently "
      ++ env.walletAddress ++ " with at least 0.001 ether"))) fun _ =>
    exitScript 1
  else
    bindS (emit (Event.log "Wallet properly funded: initiating withdrawal now")) fun _ =>
    bindS (extCall (Event.callArbSysWithdrawEth env.walletAddress ethFromL2WithdrawAmountArbsys)
      env.withdrawEth) fun _ =>
    bindS (extCall Event.callTxWait env.withdrawWait) fun withdrawRecHash =>
    bindS (extCall Event.callGetWithdrawals env.withdrawalsData) fun withdrawalsList =>
    bindS (emit (Event.log ("Ether withdrawal initiated! 🥳 " ++ withdrawRecHash))) fun _ =>
    bindS (emit (Event.log ("Withdrawal data: "
      ++ showOptString withdrawalsList.head?))) fun _ =>
    bindS (emit (Event.log "To claim funds (after dispute period), see outbox-execute repo ✌️")) fun _ =>
    bindS (extCall Event.callGetBalance env.updatedBalance)
      fun l2WalletUpdatedEthBalance =>
    emit (Event.log ("Your L2 balance is updated from "
      ++ toString l2WalletInitialEthBalance ++ " to "
      ++ toString l2WalletUpdatedEthBalance))

/-! ## Cross-chain greeter deploy script (unnamed part_000) -/

/-- Big-endian byte expansion of a natural number into `k` bytes. -/
def beBytes : Nat → Nat → List Nat
  | 0, _ => []
  | k + 1, n => beBytes k (n / 256) ++ [n % 256]

/-- One 32-byte ABI word encoding a number big-endian. -/
def abiWord (n : Nat) : List Nat := beBytes 32 n

/-- Zero-pad a byte sequence on the right to a multiple of 32 bytes. -/
def padRight32 (bs : List Nat) : List Nat :=
  bs ++ List.replicate ((32 - bs.length % 32) % 32) 0

/-- UTF-8 bytes of a string (ethers encodes strings as their UTF-8 bytes). -/
def utf8Bytes (s : String) : List Nat := s.toUTF8.toList.map (fun b => b.toNat)

/-- `ethers.utils.defaultAbiCoder.encode(["string"], [s])`: a 32-byte offset
word (0x20), a 32-byte length word, then the UTF-8 data zero-padded on the
right to a multiple of 32 bytes. -/
def abiEncodeString (s : String) : List Nat :=
  abiWord 32 ++ abiWord (utf8Bytes s).length ++ padRight32 (utf8Bytes s)

/-- `hexDataLength` of `@ethersproject/bytes`: the byte length of the data. -/
def hexDataLength (bs : List Nat) : Nat := bs.length

/-- Oracle responses for one run of the greeter deploy script. -/
structure GreeterEnv where
  bridgeInit : Except String Unit
  deployL1 : Except String String
  deployL2 : Except String String
  updateL2Target : Except String Unit
  updateL1Target : Except String Unit
  currentGreeting : Except String String
  submissionPrice : Nat → Except String (Wei × Nat)
  timeNow : Nat
  gasPrice : Except String Wei
  setGreeting : Except String String
  seqNums : Except String (Option (List Nat))
  calcRetryableHash : Option Nat → Except String String
  currentTimeString : String
  waitForTx : String → Except String String
  newGreetingAfter : Except String String

/-- Hard-coded L2 gas limit in the greeter script. -/
def maxGas : Nat := 100000

/-- The new greeting string sent from L1 in the greeter script. -/
def greeterNewGreeting : String := "Greeting from far, far away"

/-- The greeter script wait has no timeout argument. -/
def greeterWaitTimeout : Option Nat := none

/-- `main` of the greeter deploy script, with the new greeting as a
parameter (the script binds it as a local constant). -/
def greeterMainWith (newGreeting : String) (env : GreeterEnv) : ScriptRes Unit :=
  bindS (emit (Event.log "Cross-chain Greeter")) fun _ =>
  bindS (extCall Event.callBridgeInit env.bridgeInit) fun _ =>
  bindS (emit (Event.log "Deploying L1 Greeter 👋")) fun _ =>
  bindS (extCall (Event.callDeploy "GreeterL1") env.deployL1) fun l1GreeterAddr =>
  bindS (emit (Event.log ("GreeterL1 deployed to " ++ l1GreeterAddr))) fun _ =>
  bindS (emit (Event.log "Deploying L2 Greeter 👋👋")) fun _ =>
  bindS (extCall (Event.callDeploy "GreeterL2") env.deployL2) fun l2GreeterAddr =>
  bindS (emit (Event.log ("GreeterL2 deployed to " ++ l2GreeterAddr))) fun _ =>
  bindS (extCall (Event.callUpdateTarget "updateL2Target") env.updateL2Target) fun _ =>
  bindS (extCall (Event.callUpdateTarget "updateL1Target") env.updateL1Target) fun _ =>
  bindS (emit (Event.log "Counterpart contract addresses set in both greeters 👍")) fun _ =>
  bindS (extCall Event.callGreet env.currentGreeting) fun currentL2Greeting =>
  bindS (emit (Event.log ("Current L2 greeting: \"" ++ currentL2Greeting ++ "\""))) fun _ =>
  bindS (emit (Event.log "Updating greeting from L1 to L2:")) fun _ =>
  let newGreetingBytes := abiEncodeString newGreeting
  let newGreetingBytesLength := hexDataLength newGreetingBytes + 4
  bindS (extCall (Event.callGetTxnSubmissionPrice newGreetingBytesLength)
    (env.submissionPrice newGreetingBytesLength)) fun priceInfo =>
  bindS (emit (Event.log ("Current retryable base submission price: "
    ++ toString priceInfo.1))) fun _ =>
  bindS (emit (Event.log ("Time in seconds till price updates: "
    ++ toString ((priceInfo.2 : Int) - (env.timeNow : Int))))) fun _ =>
  let submissionPriceWei := priceInfo.1 * 5
  bindS (extCall Event.callGetGasPrice env.gasPrice) fun gasPriceBid =>
  bindS (emit (Event.log ("L2 gas price: " ++ toString gasPriceBid))) fun _ =>
  let callValue := submissionPriceWei + gasPriceBid * maxGas
  bindS (emit (Event.log ("Sending greeting to L2 with " ++ toString callValue
    ++ " callValue for L2 fees:"))) fun _ =>
  bindS (extCall (Event.callSetGreetingInL2 newGreeting submissionPriceWei maxGas
    gasPriceBid callValue) env.setGreeting) fun setGreetingRecHash =>
  bindS (emit (Event.log ("Greeting txn confirmed on L1! 🙌 " ++ setGreetingRecHash))) fun _ =>
  bindS (extCall Event.callGetInboxSeqNum env.seqNums) fun inboxSeqNums =>
  match inboxSeqNums with
  | none => throwScript "Sequence number not found!"
  | some l =>
    bindS (extCall (Event.callCalcL2RetryableTxHash l.head?)
      (env.calcRetryableHash l.head?)) fun retryableTxnHash =>
    bindS (emit (Event.log ("Waiting for L2 txn 🕐... (should take < 10 minutes, current time: "
      ++ env.currentTimeString))) fun _ =>
    bindS (extCall (Event.callWaitForTransaction retryableTxnHash greeterWaitTimeout)
      (env.waitForTx retryableTxnHash)) fun retryRecHash =>
    bindS (emit (Event.log ("L2 retryable txn executed 🥳 " ++ retryRecHash))) fun _ =>
    bindS (extCall Event.callGreet env.newGreetingAfter) fun newGreetingL2 =>
    bindS (emit (Event.log ("Updated L2 greeting: \"" ++ newGreetingL2 ++ "\""))) fun _ =>
    emit (Event.log "✌️")

/-- `main` of the greeter deploy script with its hard-coded greeting. -/
def greeterMain (env : GreeterEnv) : ScriptRes Unit :=
  greeterMainWith greeterNewGreeting env

/-! ## DataFeedConsumer.sol (unnamed part_001) -/

/-- Return tuple of `AggregatorV3Interface.getRoundData`. -/
structure RoundData where
  roundID : Nat
  price : Int
  startedAt : Nat
  timestamp : Nat
  answeredInRound : Nat
  deriving DecidableEq

/-- `DataFeedConsumer.getHistoricalPrice`: forwards `getRoundData` and
requires a non-zero round timestamp, reverting otherwise. -/
def getHistoricalPrice (priceFeed : Nat → RoundData) (roundId : Nat) :
    Except String RoundData :=
  let d := priceFeed roundId
  if d.timestamp > 0 then Except.ok d
  else Except.error "Round not completed!"

/-- `DataFeedConsumer.getLatestPrice`: forwards `latestRoundData` unchanged. -/
def getLatestPrice (latestRoundData : RoundData) : RoundData := latestRoundData

/-! ## Concrete environments used to check satisfiability of hypotheses -/

/-- A fully successful run of `deposit-via-lib.ts`. -/
def depositLibEnvOk : DepositViaLibEnv where
  bridgeInit := Except.ok ()
  initialBalance := Except.ok 100
  depositETH := Except.ok ()
  depositWait := Except.ok "0xAAA"
  seqNums := Except.ok (some [7])
  calcL2TxHash := fun _ => Except.ok "0xBBB"
  waitForTx := fun _ => Except.ok "0xCCC"
  updatedBalance := Except.ok 200

/-- A fully successful run of `deposit-via-inbox.ts`. -/
def depositInboxEnvOk : DepositViaInboxEnv where
  bridgeInit := Except.ok ()
  initialBalance := Except.ok 100
  depositEth := Except.ok ()
  depositWait := Except.ok "0xIAA"
  seqNums := Except.ok (some [9])
  calcL2TxHash := fun _ => Except.ok "0xIBB"
  waitForTx := fun _ => Except.ok "0xICC"
  updatedBalance := Except.ok 200

/-- A fully successful run of `withdraw-via-lib.ts`. -/
def withdrawLibEnvOk : WithdrawViaLibEnv where
  bridgeInit := Except.ok ()
  initialBalance := Except.ok 2000000000000
  withdrawETH := Except.ok ()
  withdrawWait := Except.ok "0xWAA"
  withdrawalsData := Except.ok ["eventData"]
  walletAddress := "0xADDR"

/-- A fully successful run of `withdraw-via-arbsys.ts`. -/
def withdrawArbsysEnvOk : WithdrawViaArbsysEnv where
  initialBalance := Except.ok 2000000000000000
  withdrawEth := Except.ok ()
  withdrawWait := Except.ok "0xSAA"
  withdrawalsData := Except.ok ["eventData"]
  updatedBalance := Except.ok 1000000000000000
  walletAddress := "0xADDR"

/-- A fully successful run of the greeter deploy script. -/
def greeterEnvOk : GreeterEnv where
  bridgeInit := Except.ok ()
  deployL1 := Except.ok "0xL1G"
  deployL2 := Except.ok "0xL2G"
  updateL2Target := Except.ok ()
  updateL1Target := Except.ok ()
  currentGreeting := Except.ok "Hello world in L2"
  submissionPrice := fun _ => Except.ok (7, 1000)
  timeNow := 900
  gasPrice := Except.ok 3
  setGreeting := Except.ok "0xSG"
  seqNums := Except.ok (some [11])
  calcRetryableHash := fun _ => Except.ok "0xRT"
  currentTimeString := "12:00:00"
  waitForTx := fun _ => Except.ok "0xRR"
  newGreetingAfter := Except.ok "Greeting from far, far away"

/-- `deposit-via-lib.ts` run whose first bridge call rejects. -/
def depositLibEnvBoom : DepositViaLibEnv :=
  { depositLibEnvOk with bridgeInit := Except.error "boom" }

/-- `deposit-via-inbox.ts` run whose first bridge call rejects. -/
def depositInboxEnvBoom : DepositViaInboxEnv :=
  { depositInboxEnvOk with bridgeInit := Except.error "boom" }

/-- `withdraw-via-lib.ts` run whose first bridge call rejects. -/
def withdrawLibEnvBoom : WithdrawViaLibEnv :=
  { withdrawLibEnvOk with bridgeInit := Except.error "boom" }

/-- `withdraw-via-arbsys.ts` run whose balance query rejects. -/
def withdrawArbsysEnvBoom : WithdrawViaArbsysEnv :=
  { withdrawArbsysEnvOk with initialBalance := Except.error "boom" }

/-- Greeter run whose first bridge call rejects. -/
def greeterEnvBoom : GreeterEnv :=
  { greeterEnvOk with bridgeInit := Except.error "boom" }

/-- `deposit-via-lib.ts` run where the sequence-number lookup finds nothing. -/
def depositLibEnvNoSeq : DepositViaLibEnv :=
  { depositLibEnvOk with seqNums := Except.ok none }

/-- `deposit-via-inbox.ts` run where the sequence-number lookup finds nothing. -/
def depositInboxEnvNoSeq : DepositViaInboxEnv :=
  { depositInboxEnvOk with seqNums := Except.ok none }

/-- Greeter run where the sequence-number lookup finds nothing. -/
def greeterEnvNoSeq : GreeterEnv :=
  { greeterEnvOk with seqNums := Except.ok none }

/-- `withdraw-via-lib.ts` run with an underfunded wallet. -/
def withdrawLibEnvPoor : WithdrawViaLibEnv :=
  { withdrawLibEnvOk with initialBalance := Except.ok 5 }

/-- `withdraw-via-arbsys.ts` run with an underfunded wallet. -/
def withdrawArbsysEnvPoor : WithdrawViaArbsysEnv :=
  { withdrawArbsysEnvOk with initialBalance := Except.ok 5 }

/-- `withdraw-via-lib.ts` run whose balance equals the amount exactly. -/
def withdrawLibEnvExact : WithdrawViaLibEnv :=
  { withdrawLibEnvOk with initialBalance := Except.ok ethFromL2WithdrawAmount }

/-- `withdraw-via-arbsys.ts` run whose balance equals the amount exactly. -/
def withdrawArbsysEnvExact : WithdrawViaArbsysEnv :=
  { withdrawArbsysEnvOk with initialBalance := Except.ok ethFromL2WithdrawAmountArbsys }

/-! ## Helper lemmas -/

/-- The trace of an external call always records the call event. -/
theorem extCall_fst {α : Type} (e : Event) (r : Except String α) :
    (extCall e r).1 = [e] := rfl

/-- Events of the first step stay in the trace of a sequenced run. -/
theorem mem_bindS_left {α β : Type} {x : ScriptRes α} (k : α → ScriptRes β)
    {e : Event} (he : e ∈ x.1) : e ∈ (bindS x k).1 := by
  obtain ⟨t, r⟩ := x
  cases r with
  | ok a => exact List.mem_append_left _ he
  | error h => exact he

/-- A run that ends in a thrown error has the wrapper log the error and exit
with status 1, appending nothing else to the trace. -/
theorem runScript_thrown (m : ScriptRes Unit) (msg : String)
    (h : m.2 = Except.error (Halt.thrown msg)) :
    runScript m = (m.1 ++ [Event.errorLog msg], 1) := by
  obtain ⟨t, r⟩ := m
  simp only at h
  subst h
  rfl

/-- A run that completes normally exits with status 0. -/
theorem runScript_ok (m : ScriptRes Unit) (h : ∃ u, m.2 = Except.ok u) :
    runScript m = (m.1, 0) := by
  obtain ⟨t, r⟩ := m
  obtain ⟨u, hu⟩ := h
  simp only at hu
  subst hu
  rfl

/-! ## Claim theorems -/

/-- C10: `DataFeedConsumer.getHistoricalPrice` reverts with message
"Round not completed!" exactly when the aggregator returns a zero round
timestamp, and otherwise returns the aggregator round data unchanged. -/
theorem getHistoricalPrice_revert_iff_zero_timestamp
    (priceFeed : Nat → RoundData) (roundId : Nat) :
    (getHistoricalPrice priceFeed roundId = Except.error "Round not completed!"
      ↔ (priceFeed roundId).timestamp = 0)
    ∧ getHistoricalPrice priceFeed roundId =
        (if (priceFeed roundId).timestamp = 0
         then Except.error "Round not completed!"
         else Except.ok (priceFeed roundId)) := by
  unfold getHistoricalPrice
  rcases Nat.eq_zero_or_pos (priceFeed roundId).timestamp with h | h
  · simp [h]
  · simp [h, Nat.pos_iff_ne_zero.mp h]

/-- C3: in any greeter run that reaches the L1 `setGreetingInL2` call, the
adjusted submission price attached to that call is exactly the queried base
submission price multiplied by 5, with no rounding. -/
theorem greeter_submission_price_times_five (env : GreeterEnv)
    (a1 a2 g rh rth rrh g2 : String) (P ts gp : Nat) (ns : List Nat)
    (h1 : env.bridgeInit = Except.ok ())
    (h2 : env.deployL1 = Except.ok a1)
    (h3 : env.deployL2 = Except.ok a2)
    (h4 : env.updateL2Target = Except.ok ())
    (h5 : env.updateL1Target = Except.ok ())
    (h6 : env.currentGreeting = Except.ok g)
    (h7 : env.submissionPrice (hexDataLength (abiEncodeString greeterNewGreeting) + 4)
            = Except.ok (P, ts))
    (h8 : env.gasPrice = Except.ok gp)
    (h9 : env.setGreeting = Except.ok rh)
    (h10 : env.seqNums = Except.ok (some ns))
    (h11 : env.calcRetryableHash ns.head? = Except.ok rth)
    (h12 : env.waitForTx rth = Except.ok rrh)
    (h13 : env.newGreetingAfter = Except.ok g2) :
    Event.callSetGreetingInL2 greeterNewGreeting (P * 5) maxGas gp (P * 5 + gp * maxGas)
        ∈ (greeterMain env).1
    ∧ ∀ gr sp mg gpb cv,
        Event.callSetGreetingInL2 gr sp mg gpb cv ∈ (greeterMain env).1 → sp = P * 5 := by
  constructor
  · simp [greeterMain, greeterMainWith, bindS, extCall, emit, h1, h2, h3, h4, h5, h6, h7,
      h8, h9, h10, h11, h12, h13]
  · intro gr sp mg gpb cv h
    simp [greeterMain, greeterMainWith, bindS, extCall, emit, h1, h2, h3, h4, h5, h6, h7,
      h8, h9, h10, h11, h12, h13] at h
    exact h.2.1

/-- C3 witness: a concrete fully successful greeter run with base price 7. -/
theorem greeter_submission_price_times_five_witness :
    Event.callSetGreetingInL2 greeterNewGreeting (7 * 5) maxGas 3 (7 * 5 + 3 * maxGas)
        ∈ (greeterMain greeterEnvOk).1
    ∧ ∀ gr sp mg gpb cv,
        Event.callSetGreetingInL2 gr sp mg gpb cv ∈ (greeterMain greeterEnvOk).1 →
          sp = 7 * 5 :=
  greeter_submission_price_times_five greeterEnvOk "0xL1G" "0xL2G" "Hello world in L2"
    "0xSG" "0xRT" "0xRR" "Greeting from far, far away" 7 1000 3 [11]
    rfl rfl rfl rfl rfl rfl rfl rfl rfl rfl rfl rfl rfl

/-- C4: in any greeter run that reaches the L1 `setGreetingInL2` call, the
callvalue attached to that call equals the adjusted submission price plus the
gas price bid times the gas limit, as exact integer arithmetic. -/
theorem greeter_callvalue_sum (env : GreeterEnv)
    (a1 a2 g rh rth rrh g2 : String) (P ts gp : Nat) (ns : List Nat)
    (h1 : env.bridgeInit = Except.ok ())
    (h2 : env.deployL1 = Except.ok a1)
    (h3 : env.deployL2 = Except.ok a2)
    (h4 : env.updateL2Target = Except.ok ())
    (h5 : env.updateL1Target = Except.ok ())
    (h6 : env.currentGreeting = Except.ok g)
    (h7 : env.submissionPrice (hexDataLength (abiEncodeString greeterNewGreeting) + 4)
            = Except.ok (P, ts))
    (h8 : env.gasPrice = Except.ok gp)
    (h9 : env.setGreeting = Except.ok rh)
    (h10 : env.seqNums = Except.ok (some ns))
    (h11 : env.calcRetryableHash ns.head? = Except.ok rth)
    (h12 : env.waitForTx rth = Except.ok rrh)
    (h13 : env.newGreetingAfter = Except.ok g2) :
    Event.callSetGreetingInL2 greeterNewGreeting (P * 5) maxGas gp (P * 5 + gp * maxGas)
        ∈ (greeterMain env).1
    ∧ ∀ gr sp mg gpb cv,
        Event.callSetGreetingInL2 gr sp mg gpb cv ∈ (greeterMain env).1 →
          cv = sp + gpb * mg := by
  constructor
  · simp [greeterMain, greeterMainWith, bindS, extCall, emit, h1, h2, h3, h4, h5, h6, h7,
      h8, h9, h10, h11, h12, h13]
  · intro gr sp mg gpb cv h
    simp [greeterMain, greeterMainWith, bindS, extCall, emit, h1, h2, h3, h4, h5, h6, h7,
      h8, h9, h10, h11, h12, h13] at h
    obtain ⟨-, rfl, rfl, rfl, rfl⟩ := h
    rfl

/-- C4 witness: a concrete fully successful greeter run. -/
theorem greeter_callvalue_sum_witness :
    Event.callSetGreetingInL2 greeterNewGreeting (7 * 5) maxGas 3 (7 * 5 + 3 * maxGas)
        ∈ (greeterMain greeterEnvOk).1
    ∧ ∀ gr sp mg gpb cv,
        Event.callSetGreetingInL2 gr sp mg gpb cv ∈ (greeterMain greeterEnvOk).1 →
          cv = sp + gpb * mg :=
  greeter_callvalue_sum greeterEnvOk "0xL1G" "0xL2G" "Hello world in L2"
    "0xSG" "0xRT" "0xRR" "Greeting from far, far away" 7 1000 3 [11]
    rfl rfl rfl rfl rfl rfl rfl rfl rfl rfl rfl rfl rfl

/-- C9: for any new greeting string, the calldata byte length passed to the
submission-price query equals the byte length of the ABI encoding of that
string plus 4 bytes for the function selector. -/
theorem greeter_calldata_length_abi_plus_four (s : String) (env : GreeterEnv)
    (a1 a2 g rh rth rrh g2 : String) (P ts gp : Nat) (ns : List Nat)
    (h1 : env.bridgeInit = Except.ok ())
    (h2 : env.deployL1 = Except.ok a1)
    (h3 : env.deployL2 = Except.ok a2)
    (h4 : env.updateL2Target = Except.ok ())
    (h5 : env.updateL1Target = Except.ok ())
    (h6 : env.currentGreeting = Except.ok g)
    (h7 : env.submissionPrice (hexDataLength (abiEncodeString s) + 4)
            = Except.ok (P, ts))
    (h8 : env.gasPrice = Except.ok gp)
    (h9 : env.setGreeting = Except.ok rh)
    (h10 : env.seqNums = Except.ok (some ns))
    (h11 : env.calcRetryableHash ns.head? = Except.ok rth)
    (h12 : env.waitForTx rth = Except.ok rrh)
    (h13 : env.newGreetingAfter = Except.ok g2) :
    Event.callGetTxnSubmissionPrice (hexDataLength (abiEncodeString s) + 4)
        ∈ (greeterMainWith s env).1
    ∧ (∀ n, Event.callGetTxnSubmissionPrice n ∈ (greeterMainWith s env).1 →
          n = hexDataLength (abiEncodeString s) + 4)
    ∧ hexDataLength (abiEncodeString s) = (abiEncodeString s).length := by
  refine ⟨?_, ?_, rfl⟩
  · simp [greeterMainWith, bindS, extCall, emit, h1, h2, h3, h4, h5, h6, h7,
      h8, h9, h10, h11, h12, h13]
  · intro n h
    simp [greeterMainWith, bindS, extCall, emit, h1, h2, h3, h4, h5, h6, h7,
      h8, h9, h10, h11, h12, h13] at h
    exact h

/-- C9 witness: the hard-coded greeting on a concrete successful run. -/
theorem greeter_calldata_length_abi_plus_four_witness :
    Event.callGetTxnSubmissionPrice
        (hexDataLength (abiEncodeString greeterNewGreeting) + 4)
        ∈ (greeterMainWith greeterNewGreeting greeterEnvOk).1
    ∧ (∀ n, Event.callGetTxnSubmissionPrice n
          ∈ (greeterMainWith greeterNewGreeting greeterEnvOk).1 →
          n = hexDataLength (abiEncodeString greeterNewGreeting) + 4)
    ∧ hexDataLength (abiEncodeString greeterNewGreeting)
        = (abiEncodeString greeterNewGreeting).length :=
  greeter_calldata_length_abi_plus_four greeterNewGreeting greeterEnvOk
    "0xL1G" "0xL2G" "Hello world in L2"
    "0xSG" "0xRT" "0xRR" "Greeting from far, far away" 7 1000 3 [11]
    rfl rfl rfl rfl rfl rfl rfl rfl rfl rfl rfl rfl rfl

/-- A string is a substring of any string formed by prepending a prefix. -/
theorem toList_infix_append (pre s : String) : s.toList <:+: (pre ++ s).toList := by
  refine ⟨pre.toList, [], ?_⟩
  simp [String.toList]

/-- C1: in any deposit or greeter run whose sequence-number lookup over the
confirmed L1 receipt returns no entries, the script throws before any L2
transaction-hash prediction call is made. -/
theorem seqnum_missing_throws_before_hash :
    (∀ (env : DepositViaLibEnv) (b : Wei) (rh : String),
      env.bridgeInit = Except.ok () →
      env.initialBalance = Except.ok b →
      env.depositETH = Except.ok () →
      env.depositWait = Except.ok rh →
      env.seqNums = Except.ok none →
      (depositViaLibMain env).2 = Except.error (Halt.thrown "no seq num")
      ∧ ∀ q, Event.callCalcL2TxHash q ∉ (depositViaLibMain env).1)
    ∧ (∀ (env : DepositViaInboxEnv) (b : Wei) (rh : String),
      env.bridgeInit = Except.ok () →
      env.initialBalance = Except.ok b →
      env.depositEth = Except.ok () →
      env.depositWait = Except.ok rh →
      env.seqNums = Except.ok none →
      (depositViaInboxMain env).2 = Except.error (Halt.thrown "No seq num")
      ∧ ∀ q, Event.callCalcL2TxHash q ∉ (depositViaInboxMain env).1)
    ∧ (∀ (env : GreeterEnv) (a1 a2 g rh : String) (P ts gp : Nat),
      env.bridgeInit = Except.ok () →
      env.deployL1 = Except.ok a1 →
      env.deployL2 = Except.ok a2 →
      env.updateL2Target = Except.ok () →
      env.updateL1Target = Except.ok () →
      env.currentGreeting = Except.ok g →
      env.submissionPrice (hexDataLength (abiEncodeString greeterNewGreeting) + 4)
          = Except.ok (P, ts) →
      env.gasPrice = Except.ok gp →
      env.setGreeting = Except.ok rh →
      env.seqNums = Except.ok none →
      (greeterMain env).2 = Except.error (Halt.thrown "Sequence number not found!")
      ∧ ∀ q, Event.callCalcL2RetryableTxHash q ∉ (greeterMain env).1) := by
  refine ⟨?_, ?_, ?_⟩
  · intro env b rh h1 h2 h3 h4 h5
    refine ⟨?_, fun q => ?_⟩ <;>
      simp [depositViaLibMain, bindS, extCall, emit, throwScript, h1, h2, h3, h4, h5]
  · intro env b rh h1 h2 h3 h4 h5
    refine ⟨?_, fun q => ?_⟩ <;>
      simp [depositViaInboxMain, bindS, extCall, emit, throwScript, h1, h2, h3, h4, h5]
  · intro env a1 a2 g rh P ts gp h1 h2 h3 h4 h5 h6 h7 h8 h9 h10
    refine ⟨?_, fun q => ?_⟩ <;>
      simp [greeterMain, greeterMainWith, bindS, extCall, emit, throwScript,
        h1, h2, h3, h4, h5, h6, h7, h8, h9, h10]

/-- C1 witness: concrete runs where the lookup returns no entries. -/
theorem seqnum_missing_throws_before_hash_witness :
    ((depositViaLibMain depositLibEnvNoSeq).2
        = Except.error (Halt.thrown "no seq num")
      ∧ ∀ q, Event.callCalcL2TxHash q ∉ (depositViaLibMain depositLibEnvNoSeq).1)
    ∧ ((depositViaInboxMain depositInboxEnvNoSeq).2
        = Except.error (Halt.thrown "No seq num")
      ∧ ∀ q, Event.callCalcL2TxHash q ∉ (depositViaInboxMain depositInboxEnvNoSeq).1)
    ∧ ((greeterMain greeterEnvNoSeq).2
        = Except.error (Halt.thrown "Sequence number not found!")
      ∧ ∀ q, Event.callCalcL2RetryableTxHash q ∉ (greeterMain greeterEnvNoSeq).1) :=
  ⟨seqnum_missing_throws_before_hash.1 depositLibEnvNoSeq 100 "0xAAA"
      rfl rfl rfl rfl rfl,
   seqnum_missing_throws_before_hash.2.1 depositInboxEnvNoSeq 100 "0xIAA"
      rfl rfl rfl rfl rfl,
   seqnum_missing_throws_before_hash.2.2 greeterEnvNoSeq "0xL1G" "0xL2G"
      "Hello world in L2" "0xSG" 7 1000 3 rfl rfl rfl rfl rfl rfl rfl rfl rfl rfl⟩

/-- C2: in any withdrawal run whose queried L2 balance is strictly below the
configured withdrawal amount, the process exits with status 1 and the
withdrawal call is never made. -/
theorem withdraw_balance_guard_blocks_withdrawal :
    (∀ (env : WithdrawViaLibEnv) (b : Wei),
      env.bridgeInit = Except.ok () →
      env.initialBalance = Except.ok b →
      b < ethFromL2WithdrawAmount →
      (runScript (withdrawViaLibMain env)).2 = 1
      ∧ ∀ a, Event.callWithdrawETH a ∉ (withdrawViaLibMain env).1)
    ∧ (∀ (env : WithdrawViaArbsysEnv) (b : Wei),
      env.initialBalance = Except.ok b →
      b < ethFromL2WithdrawAmountArbsys →
      (runScript (withdrawViaArbsysMain env)).2 = 1
      ∧ ∀ d a, Event.callArbSysWithdrawEth d a ∉ (withdrawViaArbsysMain env).1) := by
  constructor
  · intro env b h1 h2 h3
    refine ⟨?_, fun a => ?_⟩ <;>
      simp [withdrawViaLibMain, bindS, extCall, emit, exitScript, runScript, h1, h2, h3]
  · intro env b h1 h2
    refine ⟨?_, fun d a => ?_⟩ <;>
      simp [withdrawViaArbsysMain, bindS, extCall, emit, exitScript, runScript, h1, h2]

/-- C2 witness: concrete underfunded runs of both withdrawal scripts. -/
theorem withdraw_balance_guard_blocks_withdrawal_witness :
    ((runScript (withdrawViaLibMain withdrawLibEnvPoor)).2 = 1
      ∧ ∀ a, Event.callWithdrawETH a ∉ (withdrawViaLibMain withdrawLibEnvPoor).1)
    ∧ ((runScript (withdrawViaArbsysMain withdrawArbsysEnvPoor)).2 = 1
      ∧ ∀ d a, Event.callArbSysWithdrawEth d a
          ∉ (withdrawViaArbsysMain withdrawArbsysEnvPoor).1) :=
  ⟨withdraw_balance_guard_blocks_withdrawal.1 withdrawLibEnvPoor 5 rfl rfl (by decide),
   withdraw_balance_guard_blocks_withdrawal.2 withdrawArbsysEnvPoor 5 rfl (by decide)⟩

/-- C8: in any withdrawal run whose queried L2 balance equals the configured
amount exactly, the strict less-than guard passes and the withdrawal call is
invoked. -/
theorem withdraw_balance_equal_invokes_withdrawal :
    (∀ (env : WithdrawViaLibEnv),
      env.bridgeInit = Except.ok () →
      env.initialBalance = Except.ok ethFromL2WithdrawAmount →
      Event.log "Wallet properly funded: initiating withdrawal now"
          ∈ (withdrawViaLibMain env).1
      ∧ Event.callWithdrawETH ethFromL2WithdrawAmount ∈ (withdrawViaLibMain env).1)
    ∧ (∀ (env : WithdrawViaArbsysEnv),
      env.initialBalance = Except.ok ethFromL2WithdrawAmountArbsys →
      Event.log "Wallet properly funded: initiating withdrawal now"
          ∈ (withdrawViaArbsysMain env).1
      ∧ Event.callArbSysWithdrawEth env.walletAddress ethFromL2WithdrawAmountArbsys
          ∈ (withdrawViaArbsysMain env).1) := by
  constructor
  · intro env h1 h2
    rcases h3 : env.withdrawETH with m | u <;>
      refine ⟨?_, ?_⟩ <;>
        simp [withdrawViaLibMain, bindS, extCall, emit, exitScript, h1, h2, h3]
  · intro env h1
    rcases h2 : env.withdrawEth with m | u <;>
      refine ⟨?_, ?_⟩ <;>
        simp [withdrawViaArbsysMain, bindS, extCall, emit, exitScript, h1, h2]

/-- C8 witness: concrete runs with the balance exactly at the amount. -/
theorem withdraw_balance_equal_invokes_withdrawal_witness :
    (Event.log "Wallet properly funded: initiating withdrawal now"
        ∈ (withdrawViaLibMain withdrawLibEnvExact).1
      ∧ Event.callWithdrawETH ethFromL2WithdrawAmount
          ∈ (withdrawViaLibMain withdrawLibEnvExact).1)
    ∧ (Event.log "Wallet properly funded: initiating withdrawal now"
        ∈ (withdrawViaArbsysMain withdrawArbsysEnvExact).1
      ∧ Event.callArbSysWithdrawEth withdrawArbsysEnvExact.walletAddress
          ethFromL2WithdrawAmountArbsys
          ∈ (withdrawViaArbsysMain withdrawArbsysEnvExact).1) :=
  ⟨withdraw_balance_equal_invokes_withdrawal.1 withdrawLibEnvExact rfl rfl,
   withdraw_balance_equal_invokes_withdrawal.2 withdrawArbsysEnvExact rfl⟩

/-- C6: for each script, any error thrown during the run is caught by the
top-level wrapper, logged to standard error, and turns into process exit
status 1, with nothing else appended to the run. -/
theorem thrown_error_logged_and_exit_one :
    (∀ (env : DepositViaLibEnv) (msg : String),
      (depositViaLibMain env).2 = Except.error (Halt.thrown msg) →
      runScript (depositViaLibMain env)
        = ((depositViaLibMain env).1 ++ [Event.errorLog msg], 1))
    ∧ (∀ (env : DepositViaInboxEnv) (msg : String),
      (depositViaInboxMain env).2 = Except.error (Halt.thrown msg) →
      runScript (depositViaInboxMain env)
        = ((depositViaInboxMain env).1 ++ [Event.errorLog msg], 1))
    ∧ (∀ (env : WithdrawViaLibEnv) (msg : String),
      (withdrawViaLibMain env).2 = Except.error (Halt.thrown msg) →
      runScript (withdrawViaLibMain env)
        = ((withdrawViaLibMain env).1 ++ [Event.errorLog msg], 1))
    ∧ (∀ (env : WithdrawViaArbsysEnv) (msg : String),
      (withdrawViaArbsysMain env).2 = Except.error (Halt.thrown msg) →
      runScript (withdrawViaArbsysMain env)
        = ((withdrawViaArbsysMain env).1 ++ [Event.errorLog msg], 1))
    ∧ (∀ (env : GreeterEnv) (msg : String),
      (greeterMain env).2 = Except.error (Halt.thrown msg) →
      runScript (greeterMain env)
        = ((greeterMain env).1 ++ [Event.errorLog msg], 1)) := by
  refine ⟨?_, ?_, ?_, ?_, ?_⟩ <;> exact fun env msg h => runScript_thrown _ msg h

/-- C6 witness: concrete runs whose first external call rejects. -/
theorem thrown_error_logged_and_exit_one_witness :
    runScript (depositViaLibMain depositLibEnvBoom)
        = ((depositViaLibMain depositLibEnvBoom).1 ++ [Event.errorLog "boom"], 1)
    ∧ runScript (depositViaInboxMain depositInboxEnvBoom)
        = ((depositViaInboxMain depositInboxEnvBoom).1 ++ [Event.errorLog "boom"], 1)
    ∧ runScript (withdrawViaLibMain withdrawLibEnvBoom)
        = ((withdrawViaLibMain withdrawLibEnvBoom).1 ++ [Event.errorLog "boom"], 1)
    ∧ runScript (withdrawViaArbsysMain withdrawArbsysEnvBoom)
        = ((withdrawViaArbsysMain withdrawArbsysEnvBoom).1 ++ [Event.errorLog "boom"], 1)
    ∧ runScript (greeterMain greeterEnvBoom)
        = ((greeterMain greeterEnvBoom).1 ++ [Event.errorLog "boom"], 1) :=
  ⟨thrown_error_logged_and_exit_one.1 depositLibEnvBoom "boom" rfl,
   thrown_error_logged_and_exit_one.2.1 depositInboxEnvBoom "boom" rfl,
   thrown_error_logged_and_exit_one.2.2.1 withdrawLibEnvBoom "boom" rfl,
   thrown_error_logged_and_exit_one.2.2.2.1 withdrawArbsysEnvBoom "boom" rfl,
   thrown_error_logged_and_exit_one.2.2.2.2 greeterEnvBoom "boom" rfl⟩

/-- C5: any run of `deposit-via-lib.ts` or `withdraw-via-lib.ts` that
completes without a thrown error (and without the balance-guard exit) ends
with process exit status 0, and before exiting prints a confirmation message
containing the resolved transaction hash. -/
theorem success_exit_zero_prints_resolved_hash :
    (∀ (env : DepositViaLibEnv) (b1 b2 : Wei) (rh lh l2rh : String) (ns : List Nat),
      env.bridgeInit = Except.ok () →
      env.initialBalance = Except.ok b1 →
      env.depositETH = Except.ok () →
      env.depositWait = Except.ok rh →
      env.seqNums = Except.ok (some ns) →
      env.calcL2TxHash ns.head? = Except.ok lh →
      env.waitForTx lh = Except.ok l2rh →
      env.updatedBalance = Except.ok b2 →
      (runScript (depositViaLibMain env)).2 = 0
      ∧ Event.log ("L2 transaction found! " ++ l2rh) ∈ (depositViaLibMain env).1
      ∧ l2rh.toList <:+: ("L2 transaction found! " ++ l2rh).toList)
    ∧ (∀ (env : WithdrawViaLibEnv) (b : Wei) (wrh : String) (ds : List String),
      env.bridgeInit = Except.ok () →
      env.initialBalance = Except.ok b →
      ethFromL2WithdrawAmount ≤ b →
      env.withdrawETH = Except.ok () →
      env.withdrawWait = Except.ok wrh →
      env.withdrawalsData = Except.ok ds →
      (runScript (withdrawViaLibMain env)).2 = 0
      ∧ Event.log ("Ether withdrawal initiated! 🥳 " ++ wrh) ∈ (withdrawViaLibMain env).1
      ∧ wrh.toList <:+: ("Ether withdrawal initiated! 🥳 " ++ wrh).toList) := by
  constructor
  · intro env b1 b2 rh lh l2rh ns h1 h2 h3 h4 h5 h6 h7 h8
    refine ⟨?_, ?_, toList_infix_append _ _⟩ <;>
      simp [depositViaLibMain, bindS, extCall, emit, runScript,
        h1, h2, h3, h4, h5, h6, h7, h8]
  · intro env b wrh ds h1 h2 h3 h4 h5 h6
    have hlt : ¬ (b < ethFromL2WithdrawAmount) := not_lt.mpr h3
    refine ⟨?_, ?_, toList_infix_append _ _⟩ <;>
      simp [withdrawViaLibMain, bindS, extCall, emit, runScript,
        h1, h2, hlt, h4, h5, h6]

/-- C5 witness: concrete fully successful runs of both scripts. -/
theorem success_exit_zero_prints_resolved_hash_witness :
    ((runScript (depositViaLibMain depositLibEnvOk)).2 = 0
      ∧ Event.log ("L2 transaction found! " ++ "0xCCC") ∈ (depositViaLibMain depositLibEnvOk).1
      ∧ "0xCCC".toList <:+: ("L2 transaction found! " ++ "0xCCC").toList)
    ∧ ((runScript (withdrawViaLibMain withdrawLibEnvOk)).2 = 0
      ∧ Event.log ("Ether withdrawal initiated! 🥳 " ++ "0xWAA")
          ∈ (withdrawViaLibMain withdrawLibEnvOk).1
      ∧ "0xWAA".toList <:+: ("Ether withdrawal initiated! 🥳 " ++ "0xWAA").toList) :=
  ⟨success_exit_zero_prints_resolved_hash.1 depositLibEnvOk 100 200 "0xAAA" "0xBBB"
      "0xCCC" [7] rfl rfl rfl rfl rfl rfl rfl rfl,
   success_exit_zero_prints_resolved_hash.2 withdrawLibEnvOk 2000000000000 "0xWAA"
      ["eventData"] rfl rfl (by decide) rfl rfl rfl⟩

/-- C7 counterexample: the 12-minute timeout literal `1000 * 60 * 12` is
passed to `waitForTransaction` by both deposit scripts, so it appears in two
scripts, not in exactly one. -/
theorem wait_timeout_literal_two_scripts_counterexample :
    Event.callWaitForTransaction "0xBBB" (some (1000 * 60 * 12))
        ∈ (depositViaLibMain depositLibEnvOk).1
    ∧ Event.callWaitForTransaction "0xIBB" (some (1000 * 60 * 12))
        ∈ (depositViaInboxMain depositInboxEnvOk).1
    ∧ ([depositViaLibWaitTimeout, depositViaInboxWaitTimeout,
        greeterWaitTimeout].filter Option.isSome).length = 2
    ∧ ¬ ([depositViaLibWaitTimeout, depositViaInboxWaitTimeout,
        greeterWaitTimeout].filter Option.isSome).length = 1 := by
  refine ⟨?_, ?_, by decide, by decide⟩ <;> decide

/-- C7 as amended: each wait for the counterpart L2 transaction is a blocking
wait with an optional timeout; where a timeout literal is given it equals 12
minutes (1000 * 60 * 12 milliseconds), and it appears in exactly two scripts
(the two deposit scripts), while the greeter wait has no timeout. -/
theorem wait_timeout_literal_twelve_minutes :
    depositViaLibWaitTimeout = some (1000 * 60 * 12)
    ∧ depositViaInboxWaitTimeout = some (1000 * 60 * 12)
    ∧ greeterWaitTimeout = none
    ∧ ([depositViaLibWaitTimeout, depositViaInboxWaitTimeout,
        greeterWaitTimeout].filter Option.isSome).length = 2
    ∧ 1000 * 60 * 12 = 720000 := by
  refine ⟨rfl, rfl, rfl, by decide, by norm_num⟩
